import Mathlib

/-!
Verification of the economic-activity dashboard pipeline (`src/app.py`).

The script loads a labor-statistics CSV, drops the aggregate `"계"` rows,
derives the `실업률 (%)` (unemployment-rate) column, filters by user-selected
years and regions, computes summary scalars, and offers a CSV export.
Numeric columns are embedded as rationals; the pipeline stages become pure
functions on lists of records.
-/

/-- One row of the source table (`경제활동_통합.csv`): columns `년도`, `지역`,
`경제활동인구 (천명)`, `취업자 (천명)`, `실업자 (천명)`. -/
structure Row where
  year : Int
  region : String
  economically_active : ℚ
  employed : ℚ
  unemployed : ℚ
deriving DecidableEq, Repr

/-- A row after `load_data` added the derived `실업률 (%)` column. -/
structure Record where
  year : Int
  region : String
  economically_active : ℚ
  employed : ℚ
  unemployed : ℚ
  unemployment_rate : ℚ
deriving DecidableEq, Repr

/-- The per-row lambda of `df.apply` in `load_data` (src/app.py lines 20-23):
`(row['실업자 (천명)'] / row['경제활동인구 (천명)'] * 100) if row['경제활동인구 (천명)'] > 0 else 0`. -/
def rateOfRow (row : Row) : ℚ :=
  if row.economically_active > 0 then row.unemployed / row.economically_active * 100 else 0

/-- Extends a surviving row with the derived rate column. -/
def deriveRecord (row : Row) : Record :=
  { year := row.year, region := row.region,
    economically_active := row.economically_active,
    employed := row.employed, unemployed := row.unemployed,
    unemployment_rate := rateOfRow row }

/-- `load_data` (src/app.py lines 14-24) after the file was read successfully:
drops every row with `지역 == '계'` (line 18), then adds the `실업률 (%)`
column (lines 20-23). -/
def load_data (rows : List Row) : List Record :=
  ((rows.filter fun r => !(r.region == "계")).map deriveRecord)

example :
    load_data [⟨2023, "서울특별시", 6000, 5700, 300⟩, ⟨2023, "계", 30000, 28500, 1500⟩]
      = [⟨2023, "서울특별시", 6000, 5700, 300, 5⟩] := by
  simp [load_data, deriveRecord, rateOfRow]
  norm_num

/-- The boolean mask of src/app.py line 60:
`df[df['년도'].isin(selected_years) & df['지역'].isin(selected_regions)]`. -/
def filterData (df : List Record) (selected_years : List Int)
    (selected_regions : List String) : List Record :=
  df.filter fun r => selected_years.contains r.year && selected_regions.contains r.region

/-- The three KPI scalars of src/app.py lines 67-69. -/
structure Summary where
  total_employed : ℚ
  total_unemployed : ℚ
  avg_unemployment_rate : ℚ
deriving DecidableEq, Repr

/-- Pandas `Series.mean`: sum of the entries divided by their count. -/
def listMean (l : List ℚ) : ℚ := l.sum / l.length

/-- `summarize` — the KPI block of `main_dashboard` (src/app.py lines 67-69):
`total_employed = filtered_df['취업자 (천명)'].sum()`,
`total_unemployed = filtered_df['실업자 (천명)'].sum()`,
`avg_unemployment_rate = filtered_df['실업률 (%)'].mean()`. -/
def summarize (subset : List Record) : Summary :=
  { total_employed := (subset.map Record.employed).sum,
    total_unemployed := (subset.map Record.unemployed).sum,
    avg_unemployment_rate := listMean (subset.map Record.unemployment_rate) }

/-- The population-weighted rate `total_unemployed / total_active * 100`,
which the spec explicitly says the Aggregator does NOT compute. -/
def weightedRate (subset : List Record) : ℚ :=
  (subset.map Record.unemployed).sum / (subset.map Record.economically_active).sum * 100

/-- A cell of the exported delimited text: pandas `to_csv` writes numeric
columns as plain numbers and string columns as text. -/
inductive CsvCell where
  | intVal (n : Int)
  | numVal (q : ℚ)
  | strVal (s : String)
deriving DecidableEq, Repr

/-- The byte output of `to_csv(index=False).encode('utf-8-sig')`: `utf-8-sig`
prepends a byte-order marker, `index=False` keeps exactly the data columns. -/
structure CsvFile where
  bom : Bool
  header : List String
  rows : List (List CsvCell)
deriving DecidableEq, Repr

/-- The header of `filtered_df`: the five source columns plus the derived one. -/
def fullHeader : List String :=
  ["년도", "지역", "경제활동인구 (천명)", "취업자 (천명)", "실업자 (천명)", "실업률 (%)"]

/-- One exported row: every field of the record, the rate as the plain number
held by the column (no formatting is applied before `to_csv` on line 105). -/
def csvRowOf (r : Record) : List CsvCell :=
  [CsvCell.intVal r.year, CsvCell.strVal r.region,
   CsvCell.numVal r.economically_active, CsvCell.numVal r.employed,
   CsvCell.numVal r.unemployed, CsvCell.numVal r.unemployment_rate]

/-- The CSV download payload of src/app.py line 105:
`csv_data = filtered_df.to_csv(index=False).encode('utf-8-sig')`. -/
def exportCsv (subset : List Record) : CsvFile :=
  { bom := true, header := fullHeader, rows := subset.map csvRowOf }

/-- Two-digit zero padding for the fractional part of a percentage. -/
def pad2 (n : Nat) : String :=
  if n < 10 then "0" ++ toString n else toString n

/-- The Python format `'{:.2f}%'` (src/app.py line 102): the value rounded to
two decimals, rendered with exactly two fractional digits and a `%` sign. -/
def formatPct2 (q : ℚ) : String :=
  let c : Int := round (q * 100)
  let sign := if c < 0 then "-" else ""
  sign ++ toString (c.natAbs / 100) ++ "." ++ pad2 (c.natAbs % 100) ++ "%"

/-- The rate cell shown in the on-screen table (src/app.py line 102):
`filtered_df.style.format({'실업률 (%)': '{:.2f}%'})`. -/
def displayRateCell (r : Record) : String := formatPct2 r.unemployment_rate

/-- Follows the spec's words for the Exporter (refinement comparison only):
the `실업률 (%)` column of the exported text formatted as `"NN.NN%"`. -/
def specExportCsv (subset : List Record) : CsvFile :=
  { bom := true, header := fullHeader,
    rows := subset.map fun r =>
      [CsvCell.intVal r.year, CsvCell.strVal r.region,
       CsvCell.numVal r.economically_active, CsvCell.numVal r.employed,
       CsvCell.numVal r.unemployed, CsvCell.strVal (formatPct2 r.unemployment_rate)] }

/-- The outcome of one `main_dashboard` run, as seen by the user. -/
inductive DashboardResult where
  /-- The warning of line 57 (`표시할 데이터를 보려면 ...`): empty selection. -/
  | emptySelection
  /-- The warning of line 63 (`선택하신 조건에 해당하는 데이터가 없습니다`). -/
  | emptyResult
  /-- KPIs, charts, table and download rendered from the filtered subset. -/
  | rendered (s : Summary) (table : List Record) (csv : CsvFile)
deriving DecidableEq, Repr

/-- `main_dashboard` (src/app.py lines 48-111) with the sidebar selections as
parameters: line 56 guards the empty selection (`if not selected_years or not
selected_regions`), line 60 filters, line 62 guards the empty subset, and the
rest renders KPIs (lines 67-75), charts, the table and the download. -/
def main_dashboard (df : List Record) (selected_years : List Int)
    (selected_regions : List String) : DashboardResult :=
  if selected_years = [] ∨ selected_regions = [] then
    DashboardResult.emptySelection
  else
    let filtered_df := filterData df selected_years selected_regions
    if filtered_df = [] then
      DashboardResult.emptyResult
    else
      DashboardResult.rendered (summarize filtered_df) filtered_df (exportCsv filtered_df)

/-- Modelled from the spec and Python's file semantics: the outcome of
`pd.read_csv(path)` (an external library call, not part of this repository).
A readable CSV yields the parsed rows; a path naming no file raises
`FileNotFoundError`; a path that exists but cannot be read as a CSV file
(e.g. permission denied → `PermissionError`, a directory →
`IsADirectoryError`) raises an exception other than `FileNotFoundError`. -/
inductive ReadOutcome where
  | ok (rows : List Row)
  | fileNotFound
  | otherReadError
deriving DecidableEq, Repr

/-- A Python exception that escapes `load_data`: the `except` clause of
src/app.py line 25 names `FileNotFoundError` only, so any other exception
raised by `pd.read_csv` propagates out of the function. -/
inductive UncaughtError where
  | readError
deriving DecidableEq, Repr

/-- `load_data` including its error handling (src/app.py lines 14-27): only
`FileNotFoundError` is caught — that branch reports via `st.error` and
returns `None`; a successful read returns the processed table; every other
exception propagates uncaught. -/
def load_data_checked (outcome : ReadOutcome) :
    Except UncaughtError (Option (List Record)) :=
  match outcome with
  | ReadOutcome.ok rows => Except.ok (some (load_data rows))
  | ReadOutcome.fileNotFound => Except.ok none
  | ReadOutcome.otherReadError => Except.error UncaughtError.readError

/-- The outcome of one whole run of the script. -/
inductive RunResult where
  /-- `load_data` returned `None`: the error was reported by `st.error` and
  `main_dashboard` was never called (src/app.py lines 114-117). -/
  | loadFailed
  /-- An exception escaped `load_data` and, with no handler in the
  `__main__` block, aborted the script. -/
  | crashed (e : UncaughtError)
  | dashboard (r : DashboardResult)
deriving DecidableEq, Repr

/-- The `__main__` block (src/app.py lines 114-117): load, halt when the load
failed, otherwise run the dashboard with the user's selections; an uncaught
exception aborts the run. -/
def runApp (outcome : ReadOutcome) (selected_years : List Int)
    (selected_regions : List String) : RunResult :=
  match load_data_checked outcome with
  | Except.error e => RunResult.crashed e
  | Except.ok none => RunResult.loadFailed
  | Except.ok (some data) =>
      RunResult.dashboard (main_dashboard data selected_years selected_regions)

/-! Concrete sample data used by witnesses and counterexamples. -/

/-- Scenario A source row for Seoul, 2023. -/
def rowSeoul : Row := ⟨2023, "서울특별시", 6000, 5700, 300⟩

/-- Scenario A aggregate-marker row. -/
def rowTotal : Row := ⟨2023, "계", 30000, 28500, 1500⟩

/-- The record the Loader derives from `rowSeoul` (rate `300/6000*100 = 5`). -/
def recSeoul : Record := ⟨2023, "서울특별시", 6000, 5700, 300, 5⟩

/-- A zero-denominator row: `경제활동인구 (천명) = 0`. -/
def rowZero : Row := ⟨2022, "부산광역시", 0, 0, 5⟩

/-- The record the Loader derives from `rowZero` (rate substituted by `0`). -/
def recZero : Record := ⟨2022, "부산광역시", 0, 0, 5, 0⟩

/-- A row with nobody unemployed but a positive active population. -/
def rowNoUnemp : Row := ⟨2023, "인천광역시", 100, 100, 0⟩

/-- The record derived from `rowNoUnemp`: rate `0` yet active `100 ≠ 0`. -/
def recNoUnemp : Record := ⟨2023, "인천광역시", 100, 100, 0, 0⟩

/-- A row with a negative unemployed count: `employed + unemployed = 100`
still satisfies `active ≥ employed + unemployed ≥ 0`. -/
def rowNeg : Row := ⟨2023, "경기도", 100, 150, -50⟩

/-- The record derived from `rowNeg`: rate `-50/100*100 = -50`. -/
def recNeg : Record := ⟨2023, "경기도", 100, 150, -50, -50⟩

/-- A row with more unemployed than economically active. -/
def rowOver : Row := ⟨2023, "강원도", 100, 50, 200⟩

/-- The record derived from `rowOver`: rate `200/100*100 = 200`. -/
def recOver : Record := ⟨2023, "강원도", 100, 50, 200, 200⟩

/-- Every record produced by `load_data` is the derivation of a source row
that survived the `'계'` filter. -/
theorem exists_row_of_mem_load_data {rows : List Row} {r : Record}
    (h : r ∈ load_data rows) :
    ∃ row, row ∈ rows ∧ row.region ≠ "계" ∧ r = deriveRecord row := by
  unfold load_data at h
  obtain ⟨row, hrow, rfl⟩ := List.mem_map.1 h
  have hmem := List.mem_filter.1 hrow
  refine ⟨row, hmem.1, ?_, rfl⟩
  simpa using hmem.2

/-- C1: every record kept by the Loader carries
`unemployment_rate = unemployed / economically_active * 100` when
`economically_active > 0` and `unemployment_rate = 0` otherwise; `load_data`
is a total function, so a zero-denominator record cannot make it abort. -/
theorem C1_load_rate (rows : List Row) (r : Record) (h : r ∈ load_data rows) :
    (r.economically_active > 0 →
      r.unemployment_rate = r.unemployed / r.economically_active * 100) ∧
    (¬ r.economically_active > 0 → r.unemployment_rate = 0) := by
  obtain ⟨row, -, -, rfl⟩ := exists_row_of_mem_load_data h
  constructor
  · intro hpos
    simp only [deriveRecord] at hpos ⊢
    simp [rateOfRow, hpos]
  · intro hneg
    simp only [deriveRecord] at hneg ⊢
    simp [rateOfRow, hneg]

/-- Witness for C1 at the zero-denominator row `rowZero`: the Loader keeps it
with rate `0` instead of aborting. -/
theorem C1_load_rate_witness :
    recZero ∈ load_data [rowZero] ∧
    ((recZero.economically_active > 0 →
        recZero.unemployment_rate =
          recZero.unemployed / recZero.economically_active * 100) ∧
      (¬ recZero.economically_active > 0 → recZero.unemployment_rate = 0)) :=
  ⟨by simp [load_data, rowZero, recZero, deriveRecord, rateOfRow],
   C1_load_rate [rowZero] recZero
     (by simp [load_data, rowZero, recZero, deriveRecord, rateOfRow])⟩

/-- C4: no record of the loaded Dataset has the aggregate marker `"계"` as its
region — the `'계'` rows are dropped before the derived column is computed,
so no downstream stage ever sees one. -/
theorem C4_no_aggregate_row (rows : List Row) (r : Record)
    (h : r ∈ load_data rows) : r.region ≠ "계" := by
  obtain ⟨row, -, hne, rfl⟩ := exists_row_of_mem_load_data h
  simpa [deriveRecord] using hne

/-- Witness for C4 at Scenario A's input: the Seoul record is kept and its
region is not the aggregate marker. -/
theorem C4_no_aggregate_row_witness :
    recSeoul ∈ load_data [rowSeoul, rowTotal] ∧ recSeoul.region ≠ "계" := by
  have hmem : recSeoul ∈ load_data [rowSeoul, rowTotal] := by
    simp [load_data, rowSeoul, rowTotal, recSeoul, deriveRecord, rateOfRow]
    norm_num
  exact ⟨hmem, C4_no_aggregate_row [rowSeoul, rowTotal] recSeoul hmem⟩

/-- C5: for non-empty year and region selections, the filter returns exactly
the subsequence of the dataset whose year is in the selection AND whose
region is in the selection — order-preserving (a sublist) and characterized
by the conjunctive membership condition. -/
theorem C5_filter_characterization (ds : List Record) (Y : List Int)
    (R : List String) (_hY : Y ≠ []) (_hR : R ≠ []) :
    (filterData ds Y R).Sublist ds ∧
    ∀ r : Record, r ∈ filterData ds Y R ↔ r ∈ ds ∧ r.year ∈ Y ∧ r.region ∈ R := by
  refine ⟨List.filter_sublist ds, fun r => ?_⟩
  simp [filterData, List.mem_filter]

/-- Witness for C5 on a two-record dataset: the filter keeps exactly the
record matching both dimensions. -/
theorem C5_filter_characterization_witness :
    ([2023] : List Int) ≠ [] ∧ (["서울특별시"] : List String) ≠ [] ∧
    ((filterData [recSeoul, recNeg] [2023] ["서울특별시"]).Sublist
        [recSeoul, recNeg] ∧
      ∀ r : Record, r ∈ filterData [recSeoul, recNeg] [2023] ["서울특별시"] ↔
        r ∈ [recSeoul, recNeg] ∧ r.year ∈ ([2023] : List Int) ∧
          r.region ∈ (["서울특별시"] : List String)) :=
  ⟨by simp, by simp,
   C5_filter_characterization [recSeoul, recNeg] [2023] ["서울특별시"]
     (by simp) (by simp)⟩

/-- C6: when the year selection or the region selection is empty, the run
short-circuits to the empty-selection warning of src/app.py line 57 — the
result carries no `Summary`, so the Aggregator was never invoked. -/
theorem C6_empty_selection_short_circuit (df : List Record) (Y : List Int)
    (R : List String) (h : Y = [] ∨ R = []) :
    main_dashboard df Y R = DashboardResult.emptySelection := by
  simp [main_dashboard, h]

/-- Witness for C6: an empty year selection over a one-record dataset yields
the empty-selection warning. -/
theorem C6_empty_selection_short_circuit_witness :
    (([] : List Int) = [] ∨ (["서울특별시"] : List String) = []) ∧
    main_dashboard [recSeoul] [] ["서울특별시"] = DashboardResult.emptySelection :=
  ⟨Or.inl rfl,
   C6_empty_selection_short_circuit [recSeoul] [] ["서울특별시"] (Or.inl rfl)⟩

/-- C7: with a valid (non-empty) selection whose filtered subset has zero
records, the run stops at the no-matching-data warning of src/app.py line 63
and never renders a `Summary` — in particular no NaN field can appear. -/
theorem C7_empty_subset (df : List Record) (Y : List Int) (R : List String)
    (hY : Y ≠ []) (hR : R ≠ []) (h : filterData df Y R = []) :
    main_dashboard df Y R = DashboardResult.emptyResult ∧
    ∀ (s : Summary) (t : List Record) (c : CsvFile),
      main_dashboard df Y R ≠ DashboardResult.rendered s t c := by
  have hmain : main_dashboard df Y R = DashboardResult.emptyResult := by
    unfold main_dashboard
    rw [if_neg (by simp [hY, hR]), h]
    simp
  exact ⟨hmain, fun s t c => by simp [hmain]⟩

/-- Witness for C7: selecting a region absent from the dataset gives an empty
subset and the no-matching-data outcome. -/
theorem C7_empty_subset_witness :
    ([2023] : List Int) ≠ [] ∧ (["부산광역시"] : List String) ≠ [] ∧
    filterData [recSeoul] [2023] ["부산광역시"] = [] ∧
    (main_dashboard [recSeoul] [2023] ["부산광역시"] = DashboardResult.emptyResult ∧
      ∀ (s : Summary) (t : List Record) (c : CsvFile),
        main_dashboard [recSeoul] [2023] ["부산광역시"] ≠
          DashboardResult.rendered s t c) :=
  ⟨by simp, by simp, by simp [filterData, recSeoul],
   C7_empty_subset [recSeoul] [2023] ["부산광역시"] (by simp) (by simp)
     (by simp [filterData, recSeoul])⟩

/-- C3: on every non-empty subset the Aggregator computes
`total_employed = sum(employed)`, `total_unemployed = sum(unemployed)` and
`avg_unemployment_rate = mean(unemployment_rate)` — the simple unweighted
mean, which on a concrete subset differs from the population-weighted rate
`total_unemployed / total_active * 100`. -/
theorem C3_summarize_scalars (s : List Record) (_h : s ≠ []) :
    (summarize s).total_employed = (s.map Record.employed).sum ∧
    (summarize s).total_unemployed = (s.map Record.unemployed).sum ∧
    (summarize s).avg_unemployment_rate =
      (s.map Record.unemployment_rate).sum / (s.length : ℚ) ∧
    ∃ t : List Record, t ≠ [] ∧
      (summarize t).avg_unemployment_rate ≠ weightedRate t := by
  refine ⟨rfl, rfl, by simp [summarize, listMean], [recSeoul, recOver], by simp, ?_⟩
  simp [summarize, listMean, weightedRate, recSeoul, recOver]
  norm_num

/-- Witness for C3 on Scenario C's shape (`employed = 100` and `200`): the
totals are the sums and the average is the unweighted mean. -/
theorem C3_summarize_scalars_witness :
    ([⟨2023, "서울특별시", 3000, 100, 30, 1⟩,
        ⟨2023, "경기도", 300, 200, 9, 3⟩] : List Record) ≠ [] ∧
    ((summarize [⟨2023, "서울특별시", 3000, 100, 30, 1⟩,
          ⟨2023, "경기도", 300, 200, 9, 3⟩]).total_employed =
        (([⟨2023, "서울특별시", 3000, 100, 30, 1⟩,
            ⟨2023, "경기도", 300, 200, 9, 3⟩] : List Record).map
          Record.employed).sum ∧
      (summarize [⟨2023, "서울특별시", 3000, 100, 30, 1⟩,
          ⟨2023, "경기도", 300, 200, 9, 3⟩]).total_unemployed =
        (([⟨2023, "서울특별시", 3000, 100, 30, 1⟩,
            ⟨2023, "경기도", 300, 200, 9, 3⟩] : List Record).map
          Record.unemployed).sum ∧
      (summarize [⟨2023, "서울특별시", 3000, 100, 30, 1⟩,
          ⟨2023, "경기도", 300, 200, 9, 3⟩]).avg_unemployment_rate =
        (([⟨2023, "서울특별시", 3000, 100, 30, 1⟩,
            ⟨2023, "경기도", 300, 200, 9, 3⟩] : List Record).map
          Record.unemployment_rate).sum /
          ((([⟨2023, "서울특별시", 3000, 100, 30, 1⟩,
              ⟨2023, "경기도", 300, 200, 9, 3⟩] : List Record).length : ℚ)) ∧
      ∃ t : List Record, t ≠ [] ∧
        (summarize t).avg_unemployment_rate ≠ weightedRate t) :=
  ⟨by simp,
   C3_summarize_scalars
     [⟨2023, "서울특별시", 3000, 100, 30, 1⟩, ⟨2023, "경기도", 300, 200, 9, 3⟩]
     (by simp)⟩

/-- Counterexample for C2: at Scenario A's record the download of src/app.py
line 105 writes the rate column as the plain number `5`, not as the
percentage string produced by the spec's `"NN.NN%"` formatting — the
`'{:.2f}%'` format of line 102 is applied only to the on-screen styled table,
not to `filtered_df.to_csv`. -/
theorem C2_export_counterexample :
    exportCsv [recSeoul] ≠ specExportCsv [recSeoul] ∧
    (csvRowOf recSeoul).getLast? = some (CsvCell.numVal 5) ∧
    displayRateCell recSeoul = "5.00%" := by
  refine ⟨?_, by simp [csvRowOf, recSeoul], ?_⟩
  · simp [exportCsv, specExportCsv, csvRowOf, recSeoul]
  · show formatPct2 5 = "5.00%"
    have h : round ((5:ℚ) * 100) = 500 := by norm_num [round_eq]
    simp only [formatPct2, h]
    rfl

/-- C2 amended: the export preserves every original plus derived column and
uses UTF-8 with a byte-order marker, but the `실업률 (%)` cell is the plain
numeric rate; the two-decimal percentage formatting belongs only to the
on-screen table display. -/
theorem C2_export_amended (subset : List Record) (r : Record)
    (h : r ∈ subset) :
    (exportCsv subset).bom = true ∧
    (exportCsv subset).header = fullHeader ∧
    (exportCsv subset).rows.length = subset.length ∧
    csvRowOf r ∈ (exportCsv subset).rows ∧
    (csvRowOf r).getLast? = some (CsvCell.numVal r.unemployment_rate) ∧
    displayRateCell r = formatPct2 r.unemployment_rate := by
  refine ⟨rfl, rfl, by simp [exportCsv], ?_, by simp [csvRowOf], rfl⟩
  exact List.mem_map.2 ⟨r, h, rfl⟩

/-- Witness for the amended C2 at a one-record subset. -/
theorem C2_export_amended_witness :
    recSeoul ∈ [recSeoul] ∧
    ((exportCsv [recSeoul]).bom = true ∧
      (exportCsv [recSeoul]).header = fullHeader ∧
      (exportCsv [recSeoul]).rows.length = ([recSeoul] : List Record).length ∧
      csvRowOf recSeoul ∈ (exportCsv [recSeoul]).rows ∧
      (csvRowOf recSeoul).getLast? =
        some (CsvCell.numVal recSeoul.unemployment_rate) ∧
      displayRateCell recSeoul = formatPct2 recSeoul.unemployment_rate) :=
  ⟨by simp, C2_export_amended [recSeoul] recSeoul (by simp)⟩

/-- Counterexample for C8: the loaded record from `rowNeg` satisfies the
claim's hypothesis `economically_active ≥ employed + unemployed ≥ 0` yet its
rate `-50` lies outside `[0,100]`; and the record from `rowNoUnemp` has rate
`0` although `economically_active = 100 ≠ 0`, refuting the claimed
equivalence. -/
theorem C8_counterexample :
    (recNeg ∈ load_data [rowNeg] ∧
      recNeg.economically_active ≥ recNeg.employed + recNeg.unemployed ∧
      recNeg.employed + recNeg.unemployed ≥ 0 ∧
      ¬ (0 ≤ recNeg.unemployment_rate ∧ recNeg.unemployment_rate ≤ 100)) ∧
    (recNoUnemp ∈ load_data [rowNoUnemp] ∧
      recNoUnemp.unemployment_rate = 0 ∧
      recNoUnemp.economically_active ≠ 0) := by
  refine ⟨⟨?_, by norm_num [recNeg], by norm_num [recNeg], by norm_num [recNeg]⟩,
    ⟨?_, by norm_num [recNoUnemp], by norm_num [recNoUnemp]⟩⟩
  · simp [load_data, rowNeg, recNeg, deriveRecord, rateOfRow]
  · simp [load_data, rowNoUnemp, recNoUnemp, deriveRecord, rateOfRow]

/-- C8 amended: for every loaded record, the rate lies in `[0,100]` whenever
the input additionally has `employed ≥ 0` and `unemployed ≥ 0` (with
`economically_active ≥ employed + unemployed`), and the rate is `0` exactly
when `economically_active` is not positive or `unemployed = 0` — in
particular it is `0` whenever `economically_active = 0`. -/
theorem C8_amended_rate_bounds (rows : List Row) (r : Record)
    (h : r ∈ load_data rows) :
    (0 ≤ r.employed → 0 ≤ r.unemployed →
      r.employed + r.unemployed ≤ r.economically_active →
      0 ≤ r.unemployment_rate ∧ r.unemployment_rate ≤ 100) ∧
    (r.unemployment_rate = 0 ↔
      r.economically_active ≤ 0 ∨ r.unemployed = 0) := by
  obtain ⟨row, -, -, rfl⟩ := exists_row_of_mem_load_data h
  simp only [deriveRecord, rateOfRow]
  constructor
  · intro hemp hunemp hsum
    by_cases hpos : row.economically_active > 0
    · rw [if_pos hpos]
      have hle : row.unemployed ≤ row.economically_active := by linarith
      constructor
      · positivity
      · have h1 : row.unemployed / row.economically_active ≤ 1 :=
          (div_le_one hpos).2 hle
        nlinarith
    · rw [if_neg hpos]
      norm_num
  · by_cases hpos : row.economically_active > 0
    · rw [if_pos hpos]
      constructor
      · intro h0
        rcases mul_eq_zero.1 h0 with h1 | h1
        · rcases div_eq_zero_iff.1 h1 with h2 | h2
          · exact Or.inr h2
          · exact absurd h2 (ne_of_gt hpos)
        · norm_num at h1
      · intro h0
        rcases h0 with h0 | h0
        · exact absurd hpos (not_lt.2 h0)
        · simp [h0]
    · rw [if_neg hpos]
      simp [le_of_not_lt hpos]

/-- Witness for the amended C8 at Scenario A's record (rate `5 ∈ [0,100]`,
rate nonzero since both the active population and the unemployed count are
positive). -/
theorem C8_amended_rate_bounds_witness :
    recSeoul ∈ load_data [rowSeoul] ∧
    ((0 ≤ recSeoul.employed → 0 ≤ recSeoul.unemployed →
        recSeoul.employed + recSeoul.unemployed ≤ recSeoul.economically_active →
        0 ≤ recSeoul.unemployment_rate ∧ recSeoul.unemployment_rate ≤ 100) ∧
      (recSeoul.unemployment_rate = 0 ↔
        recSeoul.economically_active ≤ 0 ∨ recSeoul.unemployed = 0)) := by
  have hmem : recSeoul ∈ load_data [rowSeoul] := by
    simp [load_data, rowSeoul, recSeoul, deriveRecord, rateOfRow]
    norm_num
  exact ⟨hmem, C8_amended_rate_bounds [rowSeoul] recSeoul hmem⟩

/-- Counterexample for C9: a path that exists but is not readable is a "path
that does not resolve to a readable file", yet `pd.read_csv` raises an
exception other than `FileNotFoundError` there, and the `except` clause of
src/app.py line 25 does not catch it — the run aborts on an uncaught error
instead of failing with the handled, reported not-found outcome. -/
theorem C9_counterexample :
    runApp ReadOutcome.otherReadError [2023] ["서울특별시"] =
      RunResult.crashed UncaughtError.readError ∧
    runApp ReadOutcome.otherReadError [2023] ["서울특별시"] ≠
      RunResult.loadFailed := by
  exact ⟨rfl, by simp [runApp, load_data_checked]⟩

/-- C9 amended: when the path names no file, `pd.read_csv` raises
`FileNotFoundError`, the only exception `load_data` catches — the failure is
reported (`st.error`, src/app.py line 26), `load_data` returns `None`, and
the run halts before the dashboard: no filtering, aggregation or rendering
happens. Any other read failure (e.g. an existing but unreadable path)
propagates uncaught and aborts the script. -/
theorem C9_amended_missing_file_halts (Y : List Int) (R : List String) :
    (load_data_checked ReadOutcome.fileNotFound = Except.ok none ∧
      runApp ReadOutcome.fileNotFound Y R = RunResult.loadFailed ∧
      ∀ d : DashboardResult,
        runApp ReadOutcome.fileNotFound Y R ≠ RunResult.dashboard d) ∧
    runApp ReadOutcome.otherReadError Y R =
      RunResult.crashed UncaughtError.readError := by
  exact ⟨⟨rfl, rfl, fun d => by simp [runApp, load_data_checked]⟩, rfl⟩

/-- C10: the Loader performs no range validation: a row with
`unemployed > economically_active > 0` is kept with rate `200 > 100`, a row
with negative `unemployed` and positive active population is kept with rate
`-50 < 0`, and both values flow unchanged into the Aggregator's sums and
mean. -/
theorem C10_no_range_validation :
    (rowOver.unemployed > rowOver.economically_active ∧
      rowOver.economically_active > 0 ∧
      load_data [rowOver] = [recOver] ∧
      recOver.unemployment_rate > 100 ∧
      summarize [recOver] =
        { total_employed := 50, total_unemployed := 200,
          avg_unemployment_rate := 200 }) ∧
    (rowNeg.unemployed < 0 ∧ rowNeg.economically_active > 0 ∧
      load_data [rowNeg] = [recNeg] ∧
      recNeg.unemployment_rate < 0 ∧
      summarize [recNeg] =
        { total_employed := 150, total_unemployed := -50,
          avg_unemployment_rate := -50 }) := by
  refine ⟨⟨by norm_num [rowOver], by norm_num [rowOver], ?_,
      by norm_num [recOver], ?_⟩,
    ⟨by norm_num [rowNeg], by norm_num [rowNeg], ?_,
      by norm_num [recNeg], ?_⟩⟩
  · simp [load_data, rowOver, recOver, deriveRecord, rateOfRow]
  · simp [summarize, listMean, recOver]
  · simp [load_data, rowNeg, recNeg, deriveRecord, rateOfRow]
  · simp [summarize, listMean, recNeg]
